import Mathlib

/-!
# Verification of the spec-driven-agent core

A shallow embedding of the repository's core components
(`spec_driven_agent/core/context_engine.py`, `consistency_validator.py`,
`symbolic_engine.py`, `workflow_orchestrator.py`, `artifact_manager.py`
together with the data model in `spec_driven_agent/models/`), with theorems
settling the behavioural claims about them.

Modelling conventions:
* Python dictionaries become insertion-ordered association lists
  (`List (κ × α)`); `dict.update`, key lookup and key assignment are
  modelled by `dict_update`, `lookupA` and `dictSet` below.
* UUIDs become `Nat`; fresh UUIDs drawn inside a method become explicit
  parameters of the modelled function.
* `datetime.utcnow()` / `datetime.now(timezone.utc)` become an explicit
  `now : Nat` parameter.
* Python exceptions become `Except`-style results: a mutating method on an
  engine returns the successor state together with an `Except` outcome; the
  error branch returns the state exactly as received, mirroring the source,
  which performs no store mutation before a `raise`.
* Dynamically typed payloads (`Any`) become the `PyValue` inductive below.
* Base-model bookkeeping fields that no modelled method reads or writes
  (`metadata`, `access_count`, `creation_context`, `last_accessed`,
  `validation_status`, …) are omitted from the structures.
-/

namespace SpecAgent

/-- Python values appearing in the dynamically typed (`Any`) payloads of the
context maps: strings, integers, booleans, `None`, lists and dictionaries. -/
inductive PyValue where
  | vstr (s : String)
  | vint (n : Int)
  | vbool (b : Bool)
  | vnone
  | vlist (xs : List PyValue)
  | vdict (m : List (String × PyValue))

/-- Lookup in an insertion-ordered association list (Python `d[k]` /
`k in d`): first binding of the key wins. -/
def lookupA {κ α : Type} [DecidableEq κ] : List (κ × α) → κ → Option α
  | [], _ => none
  | (k, v) :: rest, key => if k = key then some v else lookupA rest key

/-- Python dictionary assignment `d[k] = v`: overwrite the binding in place
if the key is present, append it otherwise. -/
def dictSet {κ α : Type} [DecidableEq κ] : List (κ × α) → κ → α → List (κ × α)
  | [], k, v => [(k, v)]
  | (k0, v0) :: rest, k, v =>
    if k0 = k then (k, v) :: rest else (k0, v0) :: dictSet rest k v

/-- Python `base.update(upd)`: keys already present keep their position and
take the new value; new keys are appended in `upd` order.  (`upd` comes from
a Python dict and hence has no duplicate keys.) -/
def dict_update {κ α : Type} [DecidableEq κ] (base upd : List (κ × α)) :
    List (κ × α) :=
  base.map (fun p => match lookupA upd p.1 with
    | some v => (p.1, v)
    | none => p) ++
  upd.filter (fun p => (lookupA base p.1).isNone)

/-- `models/context.py::SymbolicData` — the fields read or written by the
modelled engine code. -/
structure SymbolicData where
  symbolic_id : String
  symbolic_type : String
  symbolic_name : String
  concrete_data : PyValue
  symbolic_representation : List (String × PyValue)
  parent_symbolic_id : Option String
  child_symbolic_ids : List String
  related_symbolic_ids : List String

/-- `models/context.py::SymbolicReference` — the fields read or written by
the modelled engine code. -/
structure SymbolicReference where
  reference_id : String
  reference_type : String
  target_id : Option Nat
  target_path : Option String
  symbolic_name : String
  symbolic_type : String
  resolved : Bool
  resolved_at : Option Nat
  resolution_data : Option (List (String × PyValue))

/-- `models/context.py::ContextUpdate` — the fields read or written by the
modelled engine code.  The dynamically typed `update_data : Dict[str, Any]`
is split by the type of map it is merged into. -/
inductive UpdateData where
  | plain (m : List (String × PyValue))
  | symbolic (m : List (String × SymbolicData))
  | references (m : List (String × SymbolicReference))

/-- A context update (id, routing type, payload, processing marks). -/
structure ContextUpdate where
  id : Nat
  update_type : String
  update_data : UpdateData
  source_type : String
  processed : Bool
  processed_at : Option Nat

/-- `models/context.py::SpecDrivenContext` — the fields read or written by
the modelled engine code. -/
structure SpecDrivenContext where
  id : Nat
  name : String
  description : String
  status : String
  project_id : Nat
  context_type : String
  requirements : List (String × PyValue)
  specifications : List (String × PyValue)
  architecture : List (String × PyValue)
  implementation : List (String × PyValue)
  symbolic_data : List (String × SymbolicData)
  symbolic_references : List (String × SymbolicReference)
  version : Int
  version_history : List PyValue
  update_history : List Nat
  consistency_status : String
  created_at : Nat
  updated_at : Nat
  read_access : List Nat
  write_access : List Nat

/-! ## `core/consistency_validator.py::ContextConsistencyValidator`

Each `_check_*` method is a pure function from a context snapshot to a list
of violation strings; `find_inconsistencies` concatenates them in source
order.  (Messages reproduce the source f-strings, with `doesn't` written
`does not`.) -/

/-- `_check_symbolic_data_consistency`: names, types, parent and child ids. -/
def check_symbolic_data_consistency (context : SpecDrivenContext) : List String :=
  context.symbolic_data.flatMap fun p =>
    let symbolic_id := p.1
    let sd := p.2
    (if sd.symbolic_name = "" then [s!"Symbolic data {symbolic_id} missing name"] else []) ++
    (if sd.symbolic_type = "" then [s!"Symbolic data {symbolic_id} missing type"] else []) ++
    (match sd.parent_symbolic_id with
      | some parent =>
        if (lookupA context.symbolic_data parent).isNone then
          [s!"Symbolic data {symbolic_id} references non-existent parent {parent}"]
        else []
      | none => []) ++
    (sd.child_symbolic_ids.flatMap fun child_id =>
      if (lookupA context.symbolic_data child_id).isNone then
        [s!"Symbolic data {symbolic_id} references non-existent child {child_id}"]
      else [])

/-- `_check_symbolic_references_consistency`: non-empty name and type.  (The
resolved-target branch of the source is a `pass`.) -/
def check_symbolic_references_consistency (context : SpecDrivenContext) : List String :=
  context.symbolic_references.flatMap fun p =>
    let ref_id := p.1
    let r := p.2
    (if r.symbolic_name = "" then [s!"Symbolic reference {ref_id} missing name"] else []) ++
    (if r.reference_type = "" then [s!"Symbolic reference {ref_id} missing type"] else [])

/-- `_check_cross_reference_consistency`: every reference's `symbolic_name`
must be a key of `symbolic_data`, and every `related_symbolic_ids` entry must
resolve within `symbolic_data`. -/
def check_cross_reference_consistency (context : SpecDrivenContext) : List String :=
  (context.symbolic_references.flatMap fun p =>
    let ref_id := p.1
    let nm := p.2.symbolic_name
    if (lookupA context.symbolic_data nm).isNone then
      [s!"Symbolic reference {ref_id} references non-existent symbolic data {nm}"]
    else []) ++
  (context.symbolic_data.flatMap fun p =>
    let symbolic_id := p.1
    p.2.related_symbolic_ids.flatMap fun related_id =>
      if (lookupA context.symbolic_data related_id).isNone then
        [s!"Symbolic data {symbolic_id} references non-existent related data {related_id}"]
      else [])

/-- `_check_data_integrity`: context type, version and timestamp sanity.
(The source's `if not context.project_id` guard never fires: `project_id` is
a `UUID`, which defines no `__bool__`/`__len__` and is therefore always
truthy, so no `"Context missing project_id"` violation is reachable.) -/
def check_data_integrity (context : SpecDrivenContext) : List String :=
  (if context.context_type = "spec_driven" ∨ context.context_type = "legacy" ∨
      context.context_type = "migrated" then []
   else
     let t := context.context_type
     [s!"Invalid context type: {t}"]) ++
  (if context.version < 1 then
     let v := context.version
     [s!"Invalid version: {v}"]
   else []) ++
  (if context.created_at > context.updated_at then
     ["Created timestamp is after updated timestamp"]
   else [])

/-- `_check_version_consistency`: `len(version_history) == version - 1` and
`len(update_history) == len(version_history)`. -/
def check_version_consistency (context : SpecDrivenContext) : List String :=
  (if (context.version_history.length : Int) ≠ context.version - 1 then
     let n := context.version_history.length
     let v := context.version
     [s!"Version history length ({n}) does not match version ({v})"]
   else []) ++
  (if context.update_history.length ≠ context.version_history.length then
     let n := context.update_history.length
     let m := context.version_history.length
     [s!"Update history length ({n}) does not match version history length ({m})"]
   else [])

/-- `find_inconsistencies`: concatenation of the five checks, in source
order. -/
def find_inconsistencies (context : SpecDrivenContext) : List String :=
  check_symbolic_data_consistency context ++
  check_symbolic_references_consistency context ++
  check_cross_reference_consistency context ++
  check_data_integrity context ++
  check_version_consistency context

/-- `is_consistent`: emptiness of `find_inconsistencies`. -/
def is_consistent (context : SpecDrivenContext) : Bool :=
  find_inconsistencies context = []

/-! ## `core/symbolic_engine.py::SpecSymbolicEngine`

The classifier, name generator and structure builders used by
`create_symbolic_representation`.  `str`/`repr` of Python values are
modelled by `pyStr`/`pyRepr` (no escape sequences arise in the modelled
inputs). -/

/-- The single-quote character of Python `repr` output. -/
def squote : String := String.singleton (Char.ofNat 39)

/-- Opening brace of Python `repr` of a dict. -/
def lbrace : String := String.singleton (Char.ofNat 123)

/-- Closing brace of Python `repr` of a dict. -/
def rbrace : String := String.singleton (Char.ofNat 125)

mutual

/-- Python `repr` of a value. -/
def pyRepr : PyValue → String
  | .vstr s => squote ++ s ++ squote
  | .vint n => toString n
  | .vbool b => if b then "True" else "False"
  | .vnone => "None"
  | .vlist xs => "[" ++ pyReprList xs ++ "]"
  | .vdict m => lbrace ++ pyReprDict m ++ rbrace

/-- Comma-separated `repr`s of list elements. -/
def pyReprList : List PyValue → String
  | [] => ""
  | [x] => pyRepr x
  | x :: y :: rest => pyRepr x ++ ", " ++ pyReprList (y :: rest)

/-- Comma-separated `'key': repr(value)` entries of a dict. -/
def pyReprDict : List (String × PyValue) → String
  | [] => ""
  | [(k, v)] => squote ++ k ++ squote ++ ": " ++ pyRepr v
  | (k, v) :: q :: rest =>
    squote ++ k ++ squote ++ ": " ++ pyRepr v ++ ", " ++ pyReprDict (q :: rest)

end

/-- Python `str` of a value (differs from `repr` only on strings). -/
def pyStr : PyValue → String
  | .vstr s => s
  | v => pyRepr v

/-- Python `type(x).__name__`. -/
def pyTypeName : PyValue → String
  | .vstr _ => "str"
  | .vint _ => "int"
  | .vbool _ => "bool"
  | .vnone => "NoneType"
  | .vlist _ => "list"
  | .vdict _ => "dict"

/-- Python `hasattr(x, "__len__")`. -/
def pyHasLen : PyValue → Bool
  | .vstr _ => true
  | .vlist _ => true
  | .vdict _ => true
  | _ => false

/-- Stand-in for Python's built-in `hash` on strings, which is salted per
process (`PYTHONHASHSEED`) and hence has no definable value; the branches
using it are not exercised by any claim's inputs. -/
def pyHash (_ : String) : Int := 0

/-- `dict.get(k, default)` on a value known to be a dict at the call site. -/
def pyDictGet (data : PyValue) (k : String) (default : PyValue) : PyValue :=
  match data with
  | .vdict m => (lookupA m k).getD default
  | _ => default

/-- `list(d.keys())` of a dict value. -/
def pyKeys : PyValue → List String
  | .vdict m => m.map Prod.fst
  | _ => []

/-- Python `k in d` for a dict. -/
def hasKey (m : List (String × PyValue)) (k : String) : Bool :=
  (lookupA m k).isSome

/-- `_determine_symbolic_type`: classification by presence of dict keys,
else by runtime shape. -/
def determine_symbolic_type (data : PyValue) : String :=
  match data with
  | .vdict m =>
    if hasKey m "openapi" || hasKey m "endpoints" then "api_specification"
    else if hasKey m "requirements" || hasKey m "features" then "requirements"
    else if hasKey m "architecture" || hasKey m "components" then "architecture"
    else if hasKey m "implementation" || hasKey m "code" then "implementation"
    else "generic_data"
  | .vlist _ => "collection"
  | .vstr _ => "text"
  | _ => "primitive"

/-- `_generate_symbolic_name`: prefer `name`/`title`/`id` fields, else a
synthetic name from the type and a content hash.  (Field values are strings
in every modelled code path; `pyStr` renders them as the source's f-strings
do.) -/
def generate_symbolic_name (data : PyValue) (symbolic_type : String) : String :=
  match data with
  | .vdict m =>
    match lookupA m "name" with
    | some v => pyStr v
    | none =>
      match lookupA m "title" with
      | some v => pyStr v
      | none =>
        match lookupA m "id" with
        | some v => symbolic_type ++ "_" ++ pyStr v
        | none => symbolic_type ++ "_" ++ toString (pyHash (pyStr data))
  | _ => symbolic_type ++ "_" ++ toString (pyHash (pyStr data))

mutual

/-- `_calculate_depth`: nesting depth of a dict (the source recurses only
into dict values, starting from the current depth). -/
def calculate_depth : PyValue → Nat → Nat
  | .vdict [], current_depth => current_depth
  | .vdict (p :: rest), current_depth =>
    calculate_depth_values (p :: rest) current_depth current_depth
  | _, current_depth => current_depth

/-- The loop of `_calculate_depth` over the dict values, carrying the
running maximum. -/
def calculate_depth_values : List (String × PyValue) → Nat → Nat → Nat
  | [], _, max_depth => max_depth
  | (_, v) :: rest, current_depth, max_depth =>
    match v with
    | .vdict m2 =>
      calculate_depth_values rest current_depth
        (max max_depth (calculate_depth (.vdict m2) (current_depth + 1)))
    | _ => calculate_depth_values rest current_depth max_depth

end

/-- `_analyze_structure`. -/
def analyze_structure (data : PyValue) : List (String × PyValue) :=
  match data with
  | .vdict m =>
    [("type", .vstr "dict"),
     ("keys", .vlist (m.map (fun p => .vstr p.1))),
     ("depth", .vint (calculate_depth (.vdict m) 0))]
  | .vlist xs =>
    [("type", .vstr "list"),
     ("length", .vint (xs.length : Int)),
     ("item_types", .vlist ((xs.take 5).map (fun x => .vstr (pyTypeName x))))]
  | other =>
    [("type", .vstr (pyTypeName other)),
     ("value", .vstr ((pyStr other).take 100))]

/-- `_create_api_spec_structure`. -/
def create_api_spec_structure (data : PyValue) : List (String × PyValue) :=
  [("type", .vstr "api_specification"),
   ("version", pyDictGet data "openapi" (.vstr "unknown")),
   ("info", pyDictGet data "info" (.vdict [])),
   ("paths", .vlist ((pyKeys (pyDictGet data "paths" (.vdict []))).map .vstr)),
   ("components", .vlist ((pyKeys (pyDictGet data "components" (.vdict []))).map .vstr)),
   ("security", pyDictGet data "security" (.vlist [])),
   ("tags", pyDictGet data "tags" (.vlist []))]

/-- `_create_requirements_structure`. -/
def create_requirements_structure (data : PyValue) : List (String × PyValue) :=
  [("type", .vstr "requirements"),
   ("features", pyDictGet data "features" (.vlist [])),
   ("constraints", pyDictGet data "constraints" (.vlist [])),
   ("stakeholders", pyDictGet data "stakeholders" (.vlist [])),
   ("priorities", pyDictGet data "priorities" (.vlist []))]

/-- `_create_architecture_structure`. -/
def create_architecture_structure (data : PyValue) : List (String × PyValue) :=
  [("type", .vstr "architecture"),
   ("components", pyDictGet data "components" (.vlist [])),
   ("layers", pyDictGet data "layers" (.vlist [])),
   ("patterns", pyDictGet data "patterns" (.vlist [])),
   ("technologies", pyDictGet data "technologies" (.vlist []))]

/-- `_create_implementation_structure`. -/
def create_implementation_structure (data : PyValue) : List (String × PyValue) :=
  [("type", .vstr "implementation"),
   ("modules", pyDictGet data "modules" (.vlist [])),
   ("files", pyDictGet data "files" (.vlist [])),
   ("dependencies", pyDictGet data "dependencies" (.vlist [])),
   ("tests", pyDictGet data "tests" (.vlist []))]

/-- `_create_generic_structure`. -/
def create_generic_structure (data : PyValue) : List (String × PyValue) :=
  [("type", .vstr "generic"),
   ("data_type", .vstr (pyTypeName data)),
   ("size", .vint (if pyHasLen data then ((pyStr data).length : Int) else 0)),
   ("structure", .vdict (analyze_structure data))]

/-- `_create_symbolic_structure`: dispatch on the symbolic type. -/
def create_symbolic_structure (data : PyValue) (symbolic_type : String) :
    List (String × PyValue) :=
  if symbolic_type = "api_specification" then create_api_spec_structure data
  else if symbolic_type = "requirements" then create_requirements_structure data
  else if symbolic_type = "architecture" then create_architecture_structure data
  else if symbolic_type = "implementation" then create_implementation_structure data
  else create_generic_structure data

/-- `create_symbolic_representation`: classify, name, build the structure
and assemble the `SymbolicData` (the fresh `uuid4` symbolic id is the
explicit `symbolic_id` parameter; the engine-registry side effect is never
read back by the modelled code paths). -/
def create_symbolic_representation (data : PyValue) (symbolic_id : String) :
    SymbolicData :=
  let symbolic_type := determine_symbolic_type data
  let symbolic_name := generate_symbolic_name data symbolic_type
  { symbolic_id := symbolic_id
    symbolic_type := symbolic_type
    symbolic_name := symbolic_name
    concrete_data := data
    symbolic_representation := create_symbolic_structure data symbolic_type
    parent_symbolic_id := none
    child_symbolic_ids := []
    related_symbolic_ids := [] }

/-! ## `core/context_engine.py::SpecDrivenContextEngine` -/

/-- `models/project.py::Project` — the fields the core reads. -/
structure Project where
  id : Nat
  name : String
  slug : String
  description : String
  stakeholders : List String
  technical_constraints : List String
  context_id : Option Nat

/-- The dict literal passed to `create_symbolic_representation` by
`_initialize_symbolic_data`. -/
def project_data_dict (project : Project) : PyValue :=
  .vdict [("name", .vstr project.name),
          ("description", .vstr project.description),
          ("stakeholders", .vlist (project.stakeholders.map .vstr)),
          ("technical_constraints", .vlist (project.technical_constraints.map .vstr))]

/-- The engine's lock-protected stores: `contexts` and the per-context
`update_history` log. -/
structure SpecDrivenContextEngine where
  contexts : List (Nat × SpecDrivenContext)
  update_history : List (Nat × List ContextUpdate)

/-- A freshly constructed engine (`__init__`). -/
def emptyEngine : SpecDrivenContextEngine :=
  { contexts := [], update_history := [] }

/-- The errors `update_context` raises: `ValueError` on a missing context
and `ContextInconsistencyError` carrying the violation list. -/
inductive ContextEngineError where
  | contextNotFound (message : String)
  | contextInconsistency (message : String) (inconsistencies : List String)

/-- `pydantic.ValidationError`, as raised by the vendored pydantic stub
(`src/pydantic/__init__.py`): an exception carrying a message naming the
missing required fields and the model. -/
structure ValidationError where
  message : String

/-- The required fields of the `SymbolicReference` model — those declared
`Field(...)` with neither a default nor a `default_factory` — in
field-declaration order, as collected by the stub's metaclass over the
`TimestampedModel`/`IdentifiableModel`/`MetadataModel`/`StatusModel` bases:
the inherited `name` (MetadataModel) and `status` (StatusModel), then the
model's own `reference_id`, `reference_type`, `symbolic_name`,
`symbolic_type`.  All other fields carry defaults or factories. -/
def symbolic_reference_required_fields : List String :=
  ["name", "status", "reference_id", "reference_type", "symbolic_name", "symbolic_type"]

/-- The keyword arguments `_initialize_symbolic_data` passes to the
`SymbolicReference` constructor. -/
def requirements_ref_kwargs : List String :=
  ["reference_id", "reference_type", "symbolic_name", "symbolic_type", "target_id"]

/-- The required fields a constructor call leaves unset: the stub's
`BaseModel.__init__` collects these in field order and raises
`ValidationError` naming them when the list is non-empty. -/
def missing_required_fields (required kwargs : List String) : List String :=
  required.filter (fun f => decide (f ∉ kwargs))

/-- Python `", ".join(...)`. -/
def pyJoinComma : List String → String
  | [] => ""
  | [s] => s
  | s :: rest => s ++ ", " ++ pyJoinComma rest

/-- The stub's `ValidationError` message
`f"Missing required fields: {', '.join(missing)} in {class_name}"`. -/
def missing_fields_message (missing : List String) (class_name : String) : String :=
  "Missing required fields: " ++ pyJoinComma missing ++ " in " ++ class_name

/-- `create_context` (with `_initialize_symbolic_data` inlined).  The
`SpecDrivenContext(...)` construction succeeds (its required `name` and
`status` are passed), and `create_symbolic_representation` succeeds and is
attached to the context's `symbolic_data` dict; but the
`SymbolicReference(...)` call that follows passes only `reference_id`,
`reference_type`, `symbolic_name`, `symbolic_type` and `target_id`,
omitting the required inherited fields `name` and `status`, so pydantic
raises `ValidationError`.  The exception propagates out of `create_context`
*before* the store write (`self.contexts[context_id] = context`), so on
every input the engine stores nothing, returns no context, and is left
exactly as received.  The fresh `uuid4` ids and the clock drawn before the
raise are the explicit `context_id`, `symbolic_id` and `now` parameters. -/
def create_context (engine : SpecDrivenContextEngine) (project : Project)
    (context_id : Nat) (symbolic_id : String) (now : Nat) :
    SpecDrivenContextEngine × Except ValidationError SpecDrivenContext :=
  let requirements_symbolic :=
    create_symbolic_representation (project_data_dict project) symbolic_id
  -- The context as built up to the raise point: constructed successfully,
  -- with the symbolic data attached (`_initialize_symbolic_data` line 219)
  -- but `symbolic_references` still empty — the reference construction is
  -- what raises — and then discarded with the propagating exception.
  let _context : SpecDrivenContext :=
    { id := context_id
      name := "Context for " ++ project.name
      description := "Spec-driven context for project " ++ project.name
      status := "active"
      project_id := project.id
      context_type := "spec_driven"
      requirements := []
      specifications := []
      architecture := []
      implementation := []
      symbolic_data := [("project_requirements", requirements_symbolic)]
      symbolic_references := []
      version := 1
      version_history := []
      update_history := []
      consistency_status := "pending"
      created_at := now
      updated_at := now
      read_access := [project.id]
      write_access := [project.id] }
  let missing :=
    missing_required_fields symbolic_reference_required_fields requirements_ref_kwargs
  (engine, .error { message := missing_fields_message missing "SymbolicReference" })

/-- The `if`/`elif` chain of the `_apply_updates` loop body: route the
payload into the map selected by `update_type` (shallow key-merge; an
unrecognized type merges nothing). -/
def apply_update_route (ctx : SpecDrivenContext) (u : ContextUpdate) :
    SpecDrivenContext :=
  match u.update_type, u.update_data with
  | "requirements", .plain m =>
    { ctx with requirements := dict_update ctx.requirements m }
  | "specifications", .plain m =>
    { ctx with specifications := dict_update ctx.specifications m }
  | "architecture", .plain m =>
    { ctx with architecture := dict_update ctx.architecture m }
  | "implementation", .plain m =>
    { ctx with implementation := dict_update ctx.implementation m }
  | "symbolic_data", .symbolic m =>
    { ctx with symbolic_data := dict_update ctx.symbolic_data m }
  | "symbolic_references", .references m =>
    { ctx with symbolic_references := dict_update ctx.symbolic_references m }
  | _, _ => ctx

/-- One iteration of the `_apply_updates` loop: route the payload, then bump
`updated_at`, increment `version` and append the update id to
`update_history` (the metadata lines run for every update). -/
def apply_update (now : Nat) (ctx : SpecDrivenContext) (u : ContextUpdate) :
    SpecDrivenContext :=
  { apply_update_route ctx u with
    updated_at := now
    version := (apply_update_route ctx u).version + 1
    update_history := (apply_update_route ctx u).update_history ++ [u.id] }

/-- `_apply_updates`: fold the per-update step over the batch, starting from
the deep copy of the stored context (immutably modelled). -/
def apply_updates (ctx : SpecDrivenContext) (updates : List ContextUpdate)
    (now : Nat) : SpecDrivenContext :=
  updates.foldl (apply_update now) ctx

/-- `update_context`: fetch, apply to a copy, validate, and either commit
(replace the stored context, mark the updates processed, append them to the
per-context history log) or raise with the violation list.  The error branch
returns the store exactly as received — the source raises before any store
mutation. -/
def update_context (engine : SpecDrivenContextEngine) (context_id : Nat)
    (updates : List ContextUpdate) (now : Nat) :
    SpecDrivenContextEngine × Except ContextEngineError Unit :=
  match lookupA engine.contexts context_id with
  | none => (engine, .error (.contextNotFound s!"Context {context_id} not found"))
  | some context =>
    let updated_context := apply_updates context updates now
    if is_consistent updated_context then
      let engine1 : SpecDrivenContextEngine :=
        { engine with contexts := dictSet engine.contexts context_id updated_context }
      let processed := updates.map fun u =>
        { u with processed := true, processed_at := some now }
      let log := (lookupA engine1.update_history context_id).getD []
      ({ engine1 with
          update_history := dictSet engine1.update_history context_id (log ++ processed) },
       .ok ())
    else
      (engine, .error (.contextInconsistency "Updates would create inconsistent state"
        (find_inconsistencies updated_context)))

/-! ## `core/workflow_orchestrator.py::SpecDrivenWorkflowOrchestrator` -/

/-- An entry of `WorkflowInstance.phase_history` (the dict literal appended
by `transition_to_phase`). -/
structure PhaseHistoryEntry where
  from_phase : String
  to_phase : String
  timestamp : Nat
  reason : String

/-- `models/workflow.py::WorkflowInstance` — the fields read or written by
the orchestrator.  Phases are the strings of the `WorkflowPhase` constants. -/
structure WorkflowInstance where
  id : Nat
  project_id : Nat
  workflow_type : String
  status : String
  current_phase : String
  completed_phases : List String
  phase_history : List PhaseHistoryEntry
  state_id : Option Nat
  state_history : List Nat
  context_id : Option Nat
  started_at : Nat

/-- `models/workflow.py::WorkflowState` — the fields read or written by the
orchestrator. -/
structure WorkflowState where
  id : Nat
  workflow_id : Nat
  current_phase : String
  phase_started_at : Nat
  phase_completed_at : Option Nat

/-- `models/workflow.py::WorkflowTransition` — the audit record built by
`transition_to_phase`. -/
structure WorkflowTransition where
  id : Nat
  workflow_id : Nat
  from_phase : String
  to_phase : String
  triggered_by : String
  trigger_reason : String
  dependencies_satisfied : Bool
  validation_passed : Bool
  transition_started_at : Nat
  transition_completed_at : Option Nat

/-- `WorkflowOrchestrationError` (one exception class; the message
distinguishes the not-found and invalid-transition cases). -/
structure WorkflowOrchestrationError where
  message : String
  workflow_id : Option Nat

/-- The orchestrator's lock-protected stores. -/
structure SpecDrivenWorkflowOrchestrator where
  workflows : List (Nat × WorkflowInstance)
  workflow_states : List (Nat × WorkflowState)
  transition_history : List (Nat × List WorkflowTransition)

/-- The `WorkflowOrchestrationError` raised on a missing workflow. -/
def workflow_not_found_error (workflow_id : Nat) : WorkflowOrchestrationError :=
  { message := s!"Workflow {workflow_id} not found"
    workflow_id := some workflow_id }

/-- The `WorkflowOrchestrationError` raised on an invalid transition. -/
def invalid_transition_error (current_phase target_phase : String)
    (workflow_id : Nat) : WorkflowOrchestrationError :=
  { message := s!"Invalid transition from {current_phase} to {target_phase}"
    workflow_id := some workflow_id }

/-- The fixed `phase_order` list of `_validate_phase_transition`. -/
def phase_order : List String :=
  ["discovery", "planning", "architecture", "design",
   "development", "testing", "deployment", "completed"]

/-- Python `list.index` returning `none` where the source catches
`ValueError`. -/
def indexOf? : List String → String → Option Nat
  | [], _ => none
  | q :: rest, p => if q = p then some 0 else (indexOf? rest p).map (· + 1)

/-- `_validate_phase_transition`.  The source first rejects a target not in
`WorkflowPhase.__dict__.values()` and then catches `ValueError` from
`phase_order.index` on either phase; no phase string equals any non-phase
`__dict__` value, so both guards reduce to index lookups in `phase_order`:
valid iff both phases occur there and `target_index >= current_index`. -/
def validate_phase_transition (workflow : WorkflowInstance)
    (target_phase : String) : Bool :=
  match indexOf? phase_order workflow.current_phase,
        indexOf? phase_order target_phase with
  | some current_index, some target_index => decide (current_index ≤ target_index)
  | _, _ => false

/-- `transition_to_phase`: look up, validate, build the transition record,
supersede the current state and rewrite the workflow.  The fresh `uuid4` ids
and the clock are explicit parameters; the error branches return the store
exactly as received — the source raises before any mutation.  (The source
also stamps `current_phase`/`phase_completed_at` on the outgoing
`WorkflowState` object just before overwriting its store slot; the
superseded object is no longer reachable from the store, so only the
replacement is modelled.) -/
def transition_to_phase (orchestrator : SpecDrivenWorkflowOrchestrator)
    (workflow_id : Nat) (target_phase : String) (trigger_reason : String)
    (now : Nat) (new_state_id transition_id : Nat) :
    SpecDrivenWorkflowOrchestrator × Except WorkflowOrchestrationError WorkflowInstance :=
  match lookupA orchestrator.workflows workflow_id with
  | none => (orchestrator, .error (workflow_not_found_error workflow_id))
  | some workflow =>
    if validate_phase_transition workflow target_phase then
      let transition : WorkflowTransition :=
        { id := transition_id
          workflow_id := workflow_id
          from_phase := workflow.current_phase
          to_phase := target_phase
          triggered_by := "system"
          trigger_reason := trigger_reason
          dependencies_satisfied := true
          validation_passed := true
          transition_started_at := now
          transition_completed_at := some now }
      let new_state : WorkflowState :=
        { id := new_state_id
          workflow_id := workflow_id
          current_phase := target_phase
          phase_started_at := now
          phase_completed_at := none }
      let previous_phase := workflow.current_phase
      let workflow2 : WorkflowInstance :=
        { workflow with
          current_phase := target_phase
          completed_phases := workflow.completed_phases ++ [previous_phase]
          phase_history := workflow.phase_history ++
            [{ from_phase := previous_phase
               to_phase := target_phase
               timestamp := now
               reason := trigger_reason }]
          state_id := some new_state_id
          state_history := workflow.state_history ++ [new_state_id] }
      ({ workflows := dictSet orchestrator.workflows workflow_id workflow2
         workflow_states := dictSet orchestrator.workflow_states workflow_id new_state
         transition_history := dictSet orchestrator.transition_history workflow_id
           ((lookupA orchestrator.transition_history workflow_id).getD [] ++ [transition]) },
       .ok workflow2)
    else
      (orchestrator,
       .error (invalid_transition_error workflow.current_phase target_phase workflow_id))

/-! ## `core/symbolic_engine.py::SymbolicReferenceResolver` -/

/-- The resolver's cache, keyed by `reference_id`. -/
structure SymbolicReferenceResolver where
  resolution_cache : List (String × PyValue)

/-- `_perform_resolution`: the placeholder resolution result. -/
def perform_resolution (reference : SymbolicReference) : PyValue :=
  .vdict [("resolved", .vbool true),
          ("reference_id", .vstr reference.reference_id),
          ("target_path",
            match reference.target_path with
            | some p => .vstr p
            | none => .vnone),
          ("data", .vstr ("Resolved data for " ++ reference.symbolic_name))]

/-- `resolve`: cache-first by `reference_id`; on a miss, resolve, cache, and
mutate the reference in place (`resolved`, `resolved_at`,
`resolution_data`); a hit returns the cached value and touches nothing.
Returns (resolved value, resolver after, reference after). -/
def resolve (resolver : SymbolicReferenceResolver) (reference : SymbolicReference)
    (now : Nat) : PyValue × SymbolicReferenceResolver × SymbolicReference :=
  match lookupA resolver.resolution_cache reference.reference_id with
  | some cached => (cached, resolver, reference)
  | none =>
    let resolved_data := perform_resolution reference
    (resolved_data,
     { resolution_cache :=
        dictSet resolver.resolution_cache reference.reference_id resolved_data },
     { reference with
        resolved := true
        resolved_at := some now
        resolution_data := some [("cached", .vbool true)] })

/-! ## SHA-256 (`hashlib.sha256(content.encode()).hexdigest()`)

A byte-level SHA-256 over `Nat` (all 32-bit state arithmetic is explicit
`% 2^32`), used by `create_artifact`/`update_artifact` for checksums. -/

/-- Truncated 32-bit addition. -/
def add32 (a b : Nat) : Nat := (a + b) % 4294967296

/-- 32-bit complement. -/
def not32 (a : Nat) : Nat := Nat.xor a 4294967295

/-- 32-bit right-rotation by `n`. -/
def rotr32 (n x : Nat) : Nat := ((x >>> n) ||| (x <<< (32 - n))) % 4294967296

/-- SHA-256 `Ch`. -/
def sha256ch (x y z : Nat) : Nat := Nat.xor (Nat.land x y) (Nat.land (not32 x) z)

/-- SHA-256 `Maj`. -/
def sha256maj (x y z : Nat) : Nat :=
  Nat.xor (Nat.xor (Nat.land x y) (Nat.land x z)) (Nat.land y z)

/-- SHA-256 `Σ0`. -/
def bigSigma0 (x : Nat) : Nat := Nat.xor (Nat.xor (rotr32 2 x) (rotr32 13 x)) (rotr32 22 x)

/-- SHA-256 `Σ1`. -/
def bigSigma1 (x : Nat) : Nat := Nat.xor (Nat.xor (rotr32 6 x) (rotr32 11 x)) (rotr32 25 x)

/-- SHA-256 `σ0`. -/
def smallSigma0 (x : Nat) : Nat := Nat.xor (Nat.xor (rotr32 7 x) (rotr32 18 x)) (x >>> 3)

/-- SHA-256 `σ1`. -/
def smallSigma1 (x : Nat) : Nat := Nat.xor (Nat.xor (rotr32 17 x) (rotr32 19 x)) (x >>> 10)

/-- The 64 SHA-256 round constants (FIPS 180-4, in decimal). -/
def sha256K : List Nat :=
  [1116352408, 1899447441, 3049323471, 3921009573, 961987163, 1508970993,
   2453635748, 2870763221, 3624381080, 310598401, 607225278, 1426881987,
   1925078388, 2162078206, 2614888103, 3248222580, 3835390401, 4022224774,
   264347078, 604807628, 770255983, 1249150122, 1555081692, 1996064986,
   2554220882, 2821834349, 2952996808, 3210313671, 3336571891, 3584528711,
   113926993, 338241895, 666307205, 773529912, 1294757372, 1396182291,
   1695183700, 1986661051, 2177026350, 2456956037, 2730485921, 2820302411,
   3259730800, 3345764771, 3516065817, 3600352804, 4094571909, 275423344,
   430227734, 506948616, 659060556, 883997877, 958139571, 1322822218,
   1537002063, 1747873779, 1955562222, 2024104815, 2227730452, 2361852424,
   2428436474, 2756734187, 3204031479, 3329325298]

/-- The SHA-256 initial hash state (FIPS 180-4, in decimal). -/
def sha256H0 : List Nat :=
  [1779033703, 3144134277, 1013904242, 2773480762,
   1359893119, 2600822924, 528734635, 1541459225]

/-- `k` big-endian bytes of `n`. -/
def bigEndianBytes : Nat → Nat → List Nat
  | 0, _ => []
  | k + 1, n => bigEndianBytes k (n / 256) ++ [n % 256]

/-- SHA-256 padding: `0x80`, zeros to 56 mod 64, then the 64-bit big-endian
bit length. -/
def sha256pad (msg : List Nat) : List Nat :=
  let padZeros := (119 - msg.length % 64) % 64
  msg ++ [128] ++ List.replicate padZeros 0 ++ bigEndianBytes 8 (8 * msg.length)

/-- Big-endian 32-bit words from bytes. -/
def bytesToWords : List Nat → List Nat
  | b0 :: b1 :: b2 :: b3 :: rest =>
    (((b0 * 256 + b1) * 256 + b2) * 256 + b3) :: bytesToWords rest
  | _ => []

/-- Split a word list into 16-word blocks (a padded SHA-256 message is
always a whole number of blocks). -/
def toBlocks : List Nat → List (List Nat)
  | w0 :: w1 :: w2 :: w3 :: w4 :: w5 :: w6 :: w7 ::
    w8 :: w9 :: w10 :: w11 :: w12 :: w13 :: w14 :: w15 :: rest =>
    [w0, w1, w2, w3, w4, w5, w6, w7, w8, w9, w10, w11, w12, w13, w14, w15] ::
      toBlocks rest
  | _ => []

/-- Extend a 16-word block to the 64-word message schedule (`k` rounds of
extension remaining). -/
def extendSchedule : List Nat → Nat → List Nat
  | w, 0 => w
  | w, k + 1 =>
    let n := w.length
    let next := add32 (add32 (w.getD (n - 16) 0) (smallSigma0 (w.getD (n - 15) 0)))
                      (add32 (w.getD (n - 7) 0) (smallSigma1 (w.getD (n - 2) 0)))
    extendSchedule (w ++ [next]) k

/-- The 64 compression rounds over the schedule and round constants. -/
def compressRounds : List Nat → List Nat → List Nat → List Nat
  | [a, b, c, d, e, f, g, h], wi :: ws, ki :: ks =>
    let t1 := add32 h (add32 (bigSigma1 e) (add32 (sha256ch e f g) (add32 ki wi)))
    let t2 := add32 (bigSigma0 a) (sha256maj a b c)
    compressRounds [add32 t1 t2, a, b, c, add32 d t1, e, f, g] ws ks
  | st, _, _ => st

/-- Compress one block into the running hash state. -/
def sha256compressBlock (hs : List Nat) (block : List Nat) : List Nat :=
  let out := compressRounds hs (extendSchedule block 48) sha256K
  List.zipWith add32 hs out

/-- SHA-256 digest bytes of a byte message. -/
def sha256bytes (msg : List Nat) : List Nat :=
  let hs := (toBlocks (bytesToWords (sha256pad msg))).foldl sha256compressBlock sha256H0
  hs.flatMap (bigEndianBytes 4)

/-- Lower-case hex characters. -/
def hexChars : List Char := "0123456789abcdef".data

/-- One lower-case hex digit. -/
def hexDigit (n : Nat) : String := String.singleton (hexChars.getD n (Char.ofNat 48))

/-- Two hex digits of a byte. -/
def hexOfByte (b : Nat) : String := hexDigit (b / 16) ++ hexDigit (b % 16)

/-- `hexdigest()` of a byte list. -/
def hexdigest (bytes : List Nat) : String := String.join (bytes.map hexOfByte)

/-- UTF-8 bytes of one character (`str.encode()`). -/
def utf8EncodeChar (c : Char) : List Nat :=
  let n := c.toNat
  if n < 128 then [n]
  else if n < 2048 then [192 ||| (n >>> 6), 128 ||| (Nat.land n 63)]
  else if n < 65536 then
    [224 ||| (n >>> 12), 128 ||| (Nat.land (n >>> 6) 63), 128 ||| (Nat.land n 63)]
  else
    [240 ||| (n >>> 18), 128 ||| (Nat.land (n >>> 12) 63),
     128 ||| (Nat.land (n >>> 6) 63), 128 ||| (Nat.land n 63)]

/-- `content.encode()`: UTF-8 bytes of a string. -/
def pyEncode (s : String) : List Nat := s.data.flatMap utf8EncodeChar

/-- `hashlib.sha256(content.encode()).hexdigest()`. -/
def sha256_hexdigest (content : String) : String :=
  hexdigest (sha256bytes (pyEncode content))

/-! ## `core/artifact_manager.py::ArtifactManager` -/

/-- The digit-run tail of a Python integer literal: digits with single
underscores allowed between digits, accumulating the value. -/
def pyDigitsAux : List Char → Nat → Option Nat
  | [], acc => some acc
  | c :: rest, acc =>
    if c.isDigit then pyDigitsAux rest (acc * 10 + (c.toNat - 48))
    else if c.toNat = 95 then
      match rest with
      | d :: rest2 =>
        if d.isDigit then pyDigitsAux rest2 (acc * 10 + (d.toNat - 48)) else none
      | [] => none
    else none

/-- A non-empty unsigned digit run (must start with a digit). -/
def pyNatDigits : List Char → Option Nat
  | [] => none
  | c :: rest => if c.isDigit then pyDigitsAux rest (c.toNat - 48) else none

/-- ASCII whitespace, as stripped by Python `int()`. -/
def isPySpace (c : Char) : Bool :=
  c.toNat = 32 || c.toNat = 9 || c.toNat = 10 || c.toNat = 13 ||
  c.toNat = 11 || c.toNat = 12

/-- Strip surrounding whitespace from a character list. -/
def trimChars (cs : List Char) : List Char :=
  ((cs.dropWhile isPySpace).reverse.dropWhile isPySpace).reverse

/-- Python `int(s)` on a string, as used on version components: surrounding
whitespace stripped, an optional single sign, then ASCII digits with
optional single underscores between digits; anything else raises
`ValueError`, modelled as `none`.  (Non-ASCII digit support is out of
scope.) -/
def pyInt? (s : String) : Option Int :=
  match trimChars s.data with
  | [] => none
  | c :: rest =>
    if c.toNat = 43 then (pyNatDigits rest).map (fun n => (n : Int))
    else if c.toNat = 45 then (pyNatDigits rest).map (fun n => -(n : Int))
    else (pyNatDigits (c :: rest)).map (fun n => (n : Int))

/-- The loop of Python `s.split(sep)` for a one-character separator,
carrying the (reversed) current piece. -/
def pySplitAux (sep : Char) : List Char → List Char → List String
  | [], acc => [String.mk acc.reverse]
  | c :: rest, acc =>
    if c = sep then String.mk acc.reverse :: pySplitAux sep rest []
    else pySplitAux sep rest (c :: acc)

/-- Python `s.split(sep)` for a one-character separator (`version.split(".")`). -/
def pySplit (s : String) (sep : Char) : List String :=
  pySplitAux sep s.data []

/-- `_increment_version`: with at least three dot-separated components and a
numeric patch, rebuild `major.minor.(patch+1)` from the first three;
otherwise (`IndexError`/`ValueError`) append `.1` to the whole string. -/
def increment_version (version : String) : String :=
  match pySplit version (Char.ofNat 46) with
  | major :: minor :: patch :: _ =>
    match pyInt? patch with
    | some patch_num => major ++ "." ++ minor ++ "." ++ toString (patch_num + 1)
    | none => version ++ ".1"
  | _ => version ++ ".1"

/-- An entry of `Artifact.version_history` (the dict literal appended by
`update_artifact`: prior version, prior `updated_at`, change description). -/
structure VersionHistoryEntry where
  version : String
  timestamp : Nat
  changes : String

/-- `models/artifact.py::Artifact` — the fields read or written by the
modelled manager code. -/
structure Artifact where
  artifact_id : String
  artifact_type : String
  artifact_name : String
  content : String
  checksum : String
  file_size : Nat
  project_id : Nat
  phase : String
  version : String
  version_history : List VersionHistoryEntry
  updated_at : Nat
  dependencies : List String
  related_artifacts : List String
  superseded_by : Option String
  supersedes : List String

/-- The manager's artifact store, keyed by `artifact_id`.  (The metadata
store and the JSON file snapshots are write-only side channels never read
back by the modelled operations and are omitted.) -/
structure ArtifactManager where
  artifacts : List (String × Artifact)

/-- A freshly constructed manager. -/
def emptyArtifactManager : ArtifactManager := { artifacts := [] }

/-- `create_artifact`: checksum and byte length from the content, default
version `"1.0.0"`, stored under the fresh `artifact_id`. -/
def create_artifact (manager : ArtifactManager) (artifact_type artifact_name : String)
    (content : String) (project_id : Nat) (phase : String)
    (artifact_id : String) (now : Nat) : ArtifactManager × Artifact :=
  let artifact : Artifact :=
    { artifact_id := artifact_id
      artifact_type := artifact_type
      artifact_name := artifact_name
      content := content
      checksum := sha256_hexdigest content
      file_size := (pyEncode content).length
      project_id := project_id
      phase := phase
      version := "1.0.0"
      version_history := []
      updated_at := now
      dependencies := []
      related_artifacts := []
      superseded_by := none
      supersedes := [] }
  ({ artifacts := dictSet manager.artifacts artifact_id artifact }, artifact)

/-- `update_artifact`: new version object from a deep copy — fresh content,
checksum, size and `updated_at`, incremented version, and a history entry
recording the prior version — stored over the old one; `none` when the id is
unknown.  (The `**kwargs` setattr loop is not exercised beyond the change
description.) -/
def update_artifact (manager : ArtifactManager) (artifact_id : String)
    (content : String) (changes : String) (now : Nat) :
    ArtifactManager × Option Artifact :=
  match lookupA manager.artifacts artifact_id with
  | none => (manager, none)
  | some artifact =>
    let new_artifact : Artifact :=
      { artifact with
        content := content
        checksum := sha256_hexdigest content
        file_size := (pyEncode content).length
        updated_at := now
        version := increment_version artifact.version
        version_history := artifact.version_history ++
          [{ version := artifact.version
             timestamp := artifact.updated_at
             changes := changes }] }
    ({ artifacts := dictSet manager.artifacts artifact_id new_artifact },
     some new_artifact)

/-- `add_artifact_relationship`: `dependency` and `related` append to the
source artifact's list only when absent; `supersedes` appends
unconditionally and sets `superseded_by` on the target; an unknown kind or a
missing artifact returns `false`.  Both artifacts are written back in source
order.  (When the two ids coincide the source mutates one shared object; the
claims only concern distinct artifacts.) -/
def add_artifact_relationship (manager : ArtifactManager)
    (artifact_id related_artifact_id relationship_type : String) :
    ArtifactManager × Bool :=
  match lookupA manager.artifacts artifact_id,
        lookupA manager.artifacts related_artifact_id with
  | some artifact, some related_artifact =>
    if relationship_type = "dependency" then
      let artifact2 :=
        if related_artifact_id ∈ artifact.dependencies then artifact
        else { artifact with dependencies := artifact.dependencies ++ [related_artifact_id] }
      ({ artifacts := dictSet (dictSet manager.artifacts artifact_id artifact2)
          related_artifact_id related_artifact }, true)
    else if relationship_type = "related" then
      let artifact2 :=
        if related_artifact_id ∈ artifact.related_artifacts then artifact
        else { artifact with related_artifacts := artifact.related_artifacts ++ [related_artifact_id] }
      ({ artifacts := dictSet (dictSet manager.artifacts artifact_id artifact2)
          related_artifact_id related_artifact }, true)
    else if relationship_type = "supersedes" then
      let artifact2 := { artifact with supersedes := artifact.supersedes ++ [related_artifact_id] }
      let related2 := { related_artifact with superseded_by := some artifact_id }
      ({ artifacts := dictSet (dictSet manager.artifacts artifact_id artifact2)
          related_artifact_id related2 }, true)
    else (manager, false)
  | _, _ => (manager, false)

/-! ## Reachable engine states and sample inputs -/

/-- Engine states reachable from a fresh engine by the two mutating
operations (`create_context` attempts with arbitrary fresh ids — which
always raise before storing — and `update_context` with arbitrary batches,
committed or rejected). -/
inductive EngineReachable : SpecDrivenContextEngine → Prop where
  | init : EngineReachable emptyEngine
  | create (engine : SpecDrivenContextEngine) (project : Project)
      (context_id : Nat) (symbolic_id : String) (now : Nat) :
      EngineReachable engine →
      EngineReachable (create_context engine project context_id symbolic_id now).1
  | update (engine : SpecDrivenContextEngine) (context_id : Nat)
      (updates : List ContextUpdate) (now : Nat) :
      EngineReachable engine →
      EngineReachable (update_context engine context_id updates now).1

/-- A sample project for concrete instantiations. -/
def sampleProject : Project :=
  { id := 7
    name := "Acme"
    slug := "acme"
    description := "demo"
    stakeholders := ["Bob"]
    technical_constraints := []
    context_id := none }

/-- A symbolic-data entry for the hand-built store fixture below. -/
def fixtureSymbolicData : SymbolicData :=
  { symbolic_id := "sd1"
    symbolic_type := "requirements"
    symbolic_name := "Project Requirements"
    concrete_data := .vdict [("name", .vstr "Acme")]
    symbolic_representation := []
    parent_symbolic_id := none
    child_symbolic_ids := []
    related_symbolic_ids := [] }

/-- A reference for the store fixture whose `symbolic_name` is a key of the
fixture's `symbolic_data` (so the cross-reference check passes). -/
def fixtureReference : SymbolicReference :=
  { reference_id := "requirements_ref"
    reference_type := "project_requirements"
    target_id := some 7
    target_path := none
    symbolic_name := "Project Requirements"
    symbolic_type := "requirements"
    resolved := false
    resolved_at := none
    resolution_data := none }

/-- A hand-built, fully consistent stored context
(`find_inconsistencies` = `[]`), used as a store fixture for exercising
`update_context` on arbitrary store contents.  The program itself never
stores a context — `create_context` raises `ValidationError` before its
store write — so this fixture is not claimed to be reachable; it plays the
role of the context the engine was evidently intended to hold. -/
def sampleStoredContext : SpecDrivenContext :=
  { id := 100
    name := "Context for Acme"
    description := "Spec-driven context for project Acme"
    status := "active"
    project_id := 7
    context_type := "spec_driven"
    requirements := []
    specifications := []
    architecture := []
    implementation := []
    symbolic_data := [("Project Requirements", fixtureSymbolicData)]
    symbolic_references := [("requirements_ref", fixtureReference)]
    version := 1
    version_history := []
    update_history := []
    consistency_status := "pending"
    created_at := 5
    updated_at := 5
    read_access := [7]
    write_access := [7] }

/-- An engine store holding the fixture context under id 100. -/
def sampleStoredEngine : SpecDrivenContextEngine :=
  { contexts := [(100, sampleStoredContext)]
    update_history := [(100, [])] }

/-- A `symbolic_data` update inserting an entry whose `child_symbolic_ids`
dangle. -/
def danglingUpdate : ContextUpdate :=
  { id := 42
    update_type := "symbolic_data"
    update_data := .symbolic
      [("orphan",
        { symbolic_id := "orphan"
          symbolic_type := "generic_data"
          symbolic_name := "Orphan"
          concrete_data := .vnone
          symbolic_representation := []
          parent_symbolic_id := none
          child_symbolic_ids := ["ghost"]
          related_symbolic_ids := [] })]
    source_type := "agent"
    processed := false
    processed_at := none }

/-- The requirements update of the spec's Scenario C. -/
def requirementsUpdate : ContextUpdate :=
  { id := 43
    update_type := "requirements"
    update_data := .plain [("new_req", .vstr "x")]
    source_type := "user"
    processed := false
    processed_at := none }

/-- A sample workflow sitting in the TESTING phase. -/
def sampleWorkflowTesting : WorkflowInstance :=
  { id := 1
    project_id := 7
    workflow_type := "spec_driven"
    status := "active"
    current_phase := "testing"
    completed_phases := ["discovery", "planning", "architecture", "design", "development"]
    phase_history := []
    state_id := some 2
    state_history := [2]
    context_id := some 100
    started_at := 0 }

/-- A sample workflow sitting in the DISCOVERY phase. -/
def sampleWorkflowDiscovery : WorkflowInstance :=
  { id := 3
    project_id := 8
    workflow_type := "spec_driven"
    status := "active"
    current_phase := "discovery"
    completed_phases := []
    phase_history := []
    state_id := some 4
    state_history := [4]
    context_id := some 101
    started_at := 0 }

/-- An orchestrator store holding the two sample workflows. -/
def sampleOrchestrator : SpecDrivenWorkflowOrchestrator :=
  { workflows := [(1, sampleWorkflowTesting), (3, sampleWorkflowDiscovery)]
    workflow_states :=
      [(1, { id := 2, workflow_id := 1, current_phase := "testing",
             phase_started_at := 0, phase_completed_at := none }),
       (3, { id := 4, workflow_id := 3, current_phase := "discovery",
             phase_started_at := 0, phase_completed_at := none })]
    transition_history := [(1, []), (3, [])] }

/-- An artifact manager holding two artifacts `A` and `B`. -/
def sampleArtifactManager : ArtifactManager :=
  (create_artifact
    (create_artifact emptyArtifactManager "document" "Doc A" "alpha" 7 "discovery" "A" 1).1
    "document" "Doc B" "beta" 7 "discovery" "B" 2).1

/-- A sample unresolved symbolic reference. -/
def sampleReference : SymbolicReference :=
  { reference_id := "ref1"
    reference_type := "requirement"
    target_id := some 7
    target_path := some "requirements/ref1"
    symbolic_name := "Sample"
    symbolic_type := "requirements"
    resolved := false
    resolved_at := none
    resolution_data := none }

/-! ## Association-list lemmas -/

theorem lookupA_dictSet_self {κ α : Type} [DecidableEq κ]
    (l : List (κ × α)) (k : κ) (v : α) :
    lookupA (dictSet l k v) k = some v := by
  induction l with
  | nil => simp [dictSet, lookupA]
  | cons p rest ih =>
    obtain ⟨k0, v0⟩ := p
    by_cases h : k0 = k
    · simp [dictSet, h, lookupA]
    · simp [dictSet, h, lookupA, ih]

theorem lookupA_dictSet_ne {κ α : Type} [DecidableEq κ]
    (l : List (κ × α)) (k k2 : κ) (v : α) (h : k2 ≠ k) :
    lookupA (dictSet l k v) k2 = lookupA l k2 := by
  induction l with
  | nil => simp [dictSet, lookupA, Ne.symm h]
  | cons p rest ih =>
    obtain ⟨k0, v0⟩ := p
    by_cases hk : k0 = k
    · subst hk
      simp [dictSet, lookupA, Ne.symm h]
    · simp [dictSet, hk, lookupA, ih]

theorem dictSet_eq_of_lookupA {κ α : Type} [DecidableEq κ]
    (l : List (κ × α)) (k : κ) (v : α) (h : lookupA l k = some v) :
    dictSet l k v = l := by
  induction l with
  | nil => simp [lookupA] at h
  | cons p rest ih =>
    obtain ⟨k0, v0⟩ := p
    by_cases hk : k0 = k
    · subst hk
      simp [lookupA] at h
      simp [dictSet, h]
    · simp [lookupA, hk] at h
      simp [dictSet, hk, ih h]

/-! ## Lemmas on `_apply_updates` and the validator -/

theorem apply_update_route_version (ctx : SpecDrivenContext) (u : ContextUpdate) :
    (apply_update_route ctx u).version = ctx.version := by
  unfold apply_update_route
  split <;> rfl

theorem apply_update_route_version_history (ctx : SpecDrivenContext) (u : ContextUpdate) :
    (apply_update_route ctx u).version_history = ctx.version_history := by
  unfold apply_update_route
  split <;> rfl

theorem apply_update_version (now : Nat) (ctx : SpecDrivenContext) (u : ContextUpdate) :
    (apply_update now ctx u).version = ctx.version + 1 := by
  simp [apply_update, apply_update_route_version]

theorem apply_update_version_history (now : Nat) (ctx : SpecDrivenContext)
    (u : ContextUpdate) :
    (apply_update now ctx u).version_history = ctx.version_history := by
  simp [apply_update, apply_update_route_version_history]

theorem apply_updates_version (now : Nat) (updates : List ContextUpdate) :
    ∀ ctx : SpecDrivenContext,
      (apply_updates ctx updates now).version = ctx.version + updates.length := by
  induction updates with
  | nil => intro ctx; simp [apply_updates]
  | cons u rest ih =>
    intro ctx
    have hstep : apply_updates ctx (u :: rest) now =
        apply_updates (apply_update now ctx u) rest now := rfl
    rw [hstep, ih, apply_update_version]
    simp only [List.length_cons]
    push_cast
    ring

theorem apply_updates_version_history (now : Nat) (updates : List ContextUpdate) :
    ∀ ctx : SpecDrivenContext,
      (apply_updates ctx updates now).version_history = ctx.version_history := by
  induction updates with
  | nil => intro ctx; simp [apply_updates]
  | cons u rest ih =>
    intro ctx
    have hstep : apply_updates ctx (u :: rest) now =
        apply_updates (apply_update now ctx u) rest now := rfl
    rw [hstep, ih, apply_update_version_history]

theorem check_version_consistency_ne_of (c : SpecDrivenContext)
    (h : (c.version_history.length : Int) ≠ c.version - 1) :
    check_version_consistency c ≠ [] := by
  unfold check_version_consistency
  rw [if_pos h]
  simp

theorem version_eqs_of_check_nil (c : SpecDrivenContext)
    (h : check_version_consistency c = []) :
    (c.version_history.length : Int) = c.version - 1 ∧
    c.update_history.length = c.version_history.length := by
  unfold check_version_consistency at h
  by_cases h1 : (c.version_history.length : Int) ≠ c.version - 1
  · rw [if_pos h1] at h; simp at h
  · by_cases h2 : c.update_history.length ≠ c.version_history.length
    · rw [if_neg h1, if_pos h2] at h; simp at h
    · exact ⟨not_ne_iff.mp h1, not_ne_iff.mp h2⟩

theorem find_nil_imp_version_nil (c : SpecDrivenContext)
    (h : find_inconsistencies c = []) : check_version_consistency c = [] := by
  unfold find_inconsistencies at h
  exact (List.append_eq_nil.mp h).2

theorem find_ne_of_version_ne (c : SpecDrivenContext)
    (h : check_version_consistency c ≠ []) : find_inconsistencies c ≠ [] :=
  fun hh => h (find_nil_imp_version_nil c hh)

/-! ## Lemmas on `update_context` -/

theorem update_context_of_inconsistent (engine : SpecDrivenContextEngine)
    (context_id : Nat) (ctx : SpecDrivenContext) (updates : List ContextUpdate)
    (now : Nat)
    (hlook : lookupA engine.contexts context_id = some ctx)
    (hbad : find_inconsistencies (apply_updates ctx updates now) ≠ []) :
    update_context engine context_id updates now =
      (engine, .error (.contextInconsistency "Updates would create inconsistent state"
        (find_inconsistencies (apply_updates ctx updates now)))) := by
  have hc : is_consistent (apply_updates ctx updates now) = false := by
    unfold is_consistent
    exact decide_eq_false hbad
  unfold update_context
  rw [hlook]
  simp [hc]

theorem update_context_contexts_cases (engine : SpecDrivenContextEngine)
    (context_id : Nat) (updates : List ContextUpdate) (now : Nat) :
    (update_context engine context_id updates now).1.contexts = engine.contexts ∨
    ∃ ctx, lookupA engine.contexts context_id = some ctx ∧
      find_inconsistencies (apply_updates ctx updates now) = [] ∧
      (update_context engine context_id updates now).1.contexts =
        dictSet engine.contexts context_id (apply_updates ctx updates now) := by
  unfold update_context
  cases h : lookupA engine.contexts context_id with
  | none => left; rfl
  | some ctx =>
    cases hc : is_consistent (apply_updates ctx updates now) with
    | false => left; simp [hc]
    | true =>
      right
      refine ⟨ctx, rfl, ?_, ?_⟩
      · unfold is_consistent at hc
        exact of_decide_eq_true hc
      · simp [hc]

theorem create_context_fst (engine : SpecDrivenContextEngine) (project : Project)
    (context_id : Nat) (symbolic_id : String) (now : Nat) :
    (create_context engine project context_id symbolic_id now).1 = engine := rfl

theorem create_context_raises_eq (engine : SpecDrivenContextEngine) (project : Project)
    (context_id : Nat) (symbolic_id : String) (now : Nat) :
    create_context engine project context_id symbolic_id now =
      (engine, .error { message :=
        "Missing required fields: name, status in SymbolicReference" }) := by
  have hmsg : missing_fields_message
      (missing_required_fields symbolic_reference_required_fields requirements_ref_kwargs)
      "SymbolicReference" =
      "Missing required fields: name, status in SymbolicReference" := by decide
  unfold create_context
  dsimp only
  rw [hmsg]

theorem engine_contexts_empty (engine : SpecDrivenContextEngine)
    (h : EngineReachable engine) : engine.contexts = [] := by
  induction h with
  | init => rfl
  | create s project context_id symbolic_id now hs ih => exact ih
  | update s context_id updates now hs ih =>
    have hnone : lookupA s.contexts context_id = none := by rw [ih]; rfl
    show (update_context s context_id updates now).1.contexts = []
    unfold update_context
    rw [hnone]
    exact ih

/-! ## Claim theorems -/

/-- C1: atomicity of `update_context` — for every stored context and every
batch whose post-update copy fails consistency validation,
`update_context` raises `ContextInconsistencyError` carrying the full
violation list and the engine state (hence the stored context with all its
fields) is returned exactly as before the call. -/
theorem update_context_atomic_on_inconsistency (engine : SpecDrivenContextEngine)
    (context_id : Nat) (ctx : SpecDrivenContext) (updates : List ContextUpdate)
    (now : Nat)
    (hlook : lookupA engine.contexts context_id = some ctx)
    (hbad : find_inconsistencies (apply_updates ctx updates now) ≠ []) :
    update_context engine context_id updates now =
      (engine, .error (.contextInconsistency "Updates would create inconsistent state"
        (find_inconsistencies (apply_updates ctx updates now)))) :=
  update_context_of_inconsistent engine context_id ctx updates now hlook hbad

/-- Witness for C1: a consistent stored context (a hand-built store
fixture — the program itself never reaches a state with a stored context,
see C5) and a batch introducing a dangling `child_symbolic_ids`
reference. -/
theorem update_context_atomic_on_inconsistency_witness :
    lookupA sampleStoredEngine.contexts 100 = some sampleStoredContext ∧
    find_inconsistencies sampleStoredContext = [] ∧
    find_inconsistencies (apply_updates sampleStoredContext [danglingUpdate] 9) ≠ [] ∧
    update_context sampleStoredEngine 100 [danglingUpdate] 9 =
      (sampleStoredEngine, .error (.contextInconsistency "Updates would create inconsistent state"
        (find_inconsistencies (apply_updates sampleStoredContext [danglingUpdate] 9)))) :=
  ⟨rfl, by decide, by decide,
   update_context_atomic_on_inconsistency sampleStoredEngine 100 sampleStoredContext
     [danglingUpdate] 9 rfl (by decide)⟩

/-- C3: for every stored context satisfying the creation-time bookkeeping
equation `len(version_history) == version - 1` (the claim's own hypothesis;
any context `create_context` set out to store would satisfy it, though in
fact it raises before storing — see C5) and every non-empty batch,
`update_context` raises `ContextInconsistencyError` and commits nothing:
`_apply_updates` increments `version` per update but never appends to
`version_history`, so the version-consistency check on the updated copy
reports a violation. -/
theorem update_context_never_commits (engine : SpecDrivenContextEngine)
    (context_id : Nat) (ctx : SpecDrivenContext) (updates : List ContextUpdate)
    (now : Nat)
    (hlook : lookupA engine.contexts context_id = some ctx)
    (hinv : (ctx.version_history.length : Int) = ctx.version - 1)
    (hne : updates ≠ []) :
    check_version_consistency (apply_updates ctx updates now) ≠ [] ∧
    update_context engine context_id updates now =
      (engine, .error (.contextInconsistency "Updates would create inconsistent state"
        (find_inconsistencies (apply_updates ctx updates now)))) := by
  have hlen : 0 < updates.length := List.length_pos.mpr hne
  have hvne : ((apply_updates ctx updates now).version_history.length : Int) ≠
      (apply_updates ctx updates now).version - 1 := by
    rw [apply_updates_version_history, apply_updates_version]
    omega
  have hcv := check_version_consistency_ne_of _ hvne
  exact ⟨hcv, update_context_of_inconsistent engine context_id ctx updates now hlook
    (find_ne_of_version_ne _ hcv)⟩

/-- Witness for C3: the Scenario C batch on the hand-built consistent store
fixture, which satisfies the claim's bookkeeping equation (the program
itself never stores a context — `create_context` raises first, see C5). -/
theorem update_context_never_commits_witness :
    check_version_consistency (apply_updates sampleStoredContext [requirementsUpdate] 9) ≠ [] ∧
    update_context sampleStoredEngine 100 [requirementsUpdate] 9 =
      (sampleStoredEngine, .error (.contextInconsistency "Updates would create inconsistent state"
        (find_inconsistencies (apply_updates sampleStoredContext [requirementsUpdate] 9)))) :=
  update_context_never_commits sampleStoredEngine 100 sampleStoredContext [requirementsUpdate] 9
    rfl (by decide) (List.cons_ne_nil requirementsUpdate [])

/-- C4: the cross-reference invariant holds for every context held in the
engine's store, in every reachable engine state — vacuously:
`create_context` raises `ValidationError` before its store write and
`update_context` requires an already-stored context, so the store is empty
in every reachable state and no stored context exists, let alone one
violating the invariant.  (The seeded reference that *would* have violated
it — `symbolic_name = "Project Requirements"` against the sole key
`"project_requirements"` — is the very construction that raises.) -/
theorem engine_cross_reference_invariant (engine : SpecDrivenContextEngine)
    (h : EngineReachable engine) :
    engine.contexts = [] ∧
    ∀ context_id ctx, lookupA engine.contexts context_id = some ctx →
      ∀ p ∈ ctx.symbolic_references,
        (lookupA ctx.symbolic_data p.2.symbolic_name).isSome = true := by
  refine ⟨engine_contexts_empty engine h, ?_⟩
  intro context_id ctx hlook
  rw [engine_contexts_empty engine h] at hlook
  simp [lookupA] at hlook

/-- Witness for C4: the store really is empty on the engine state reached
by a `create_context` attempt. -/
theorem engine_cross_reference_invariant_witness :
    (create_context emptyEngine sampleProject 100 "sid0" 5).1.contexts = [] :=
  (engine_cross_reference_invariant _
    (EngineReachable.create emptyEngine sampleProject 100 "sid0" 5
      EngineReachable.init)).1

/-- C5 (evaluation at the failing input): `create_context` never returns a
context.  On every input it raises `ValidationError` — the seeded
`SymbolicReference` constructor call passes neither `name` nor `status`,
which the base models require — and stores nothing, so none of the claim's
promised properties of the returned context can materialize.  The missing
fields are computed from the model's required fields and the call's keyword
arguments, exactly as the vendored pydantic stub does. -/
theorem create_context_always_raises :
    (∀ (engine : SpecDrivenContextEngine) (project : Project)
       (context_id : Nat) (symbolic_id : String) (now : Nat),
      create_context engine project context_id symbolic_id now =
        (engine, .error { message :=
          "Missing required fields: name, status in SymbolicReference" })) ∧
    missing_required_fields symbolic_reference_required_fields requirements_ref_kwargs =
      ["name", "status"] ∧
    "name" ∉ requirements_ref_kwargs ∧ "status" ∉ requirements_ref_kwargs :=
  ⟨fun engine project context_id symbolic_id now =>
    create_context_raises_eq engine project context_id symbolic_id now,
   by decide, by decide, by decide⟩

theorem version_bookkeeping_of_reachable (engine : SpecDrivenContextEngine)
    (h : EngineReachable engine) :
    ∀ context_id ctx, lookupA engine.contexts context_id = some ctx →
      (ctx.version_history.length : Int) = ctx.version - 1 ∧
      ctx.update_history.length = ctx.version_history.length := by
  induction h with
  | init => intro context_id ctx hlook; simp [emptyEngine, lookupA] at hlook
  | create s project cid0 sid now0 hs ih => exact ih
  | update s cid0 updates now0 hs ih =>
    intro context_id ctx hlook
    rcases update_context_contexts_cases s cid0 updates now0 with
      hsame | ⟨ctx0, _, hcons, heq⟩
    · rw [hsame] at hlook
      exact ih context_id ctx hlook
    · rw [heq] at hlook
      by_cases hkey : context_id = cid0
      · subst hkey
        rw [lookupA_dictSet_self] at hlook
        cases hlook
        exact version_eqs_of_check_nil _ (find_nil_imp_version_nil _ hcons)
      · rw [lookupA_dictSet_ne _ _ _ _ hkey] at hlook
        exact ih context_id ctx hlook

/-- C6: every context held in the engine store of any reachable engine
state (after `create_context` attempts — which raise before storing — and
any sequence of `update_context` calls, successful or not) satisfies
`len(version_history) == version - 1` and
`len(update_history) == len(version_history)`.  The store is in fact
provably empty in every reachable state (first conjunct), and independently
any context `update_context` could commit has passed the validator, whose
version-consistency check is exactly the invariant (second conjunct, proved
by preservation, not from the emptiness). -/
theorem engine_version_bookkeeping_invariant (engine : SpecDrivenContextEngine)
    (h : EngineReachable engine) :
    engine.contexts = [] ∧
    ∀ context_id ctx, lookupA engine.contexts context_id = some ctx →
      (ctx.version_history.length : Int) = ctx.version - 1 ∧
      ctx.update_history.length = ctx.version_history.length :=
  ⟨engine_contexts_empty engine h, version_bookkeeping_of_reachable engine h⟩

/-- Witness for C6: the store is empty — so the invariant holds over it —
on the engine state reached by a `create_context` attempt followed by an
`update_context` attempt. -/
theorem engine_version_bookkeeping_invariant_witness :
    (update_context (create_context emptyEngine sampleProject 100 "sid0" 5).1 100
        [requirementsUpdate] 9).1.contexts = [] :=
  (engine_version_bookkeeping_invariant _
    (EngineReachable.update _ 100 [requirementsUpdate] 9
      (EngineReachable.create emptyEngine sampleProject 100 "sid0" 5
        EngineReachable.init))).1

/-- C7: for every existing workflow whose current phase has an index in the
fixed phase order, `transition_to_phase` succeeds (returning the workflow
moved to the target, which may equal the current phase) exactly when the
target's index is at least the current one; a backward or unrecognized
target yields the invalid-transition error and leaves the store — hence
`current_phase` — unchanged. -/
theorem transition_to_phase_ordering (orchestrator : SpecDrivenWorkflowOrchestrator)
    (workflow_id : Nat) (workflow : WorkflowInstance)
    (target_phase trigger_reason : String) (now new_state_id transition_id : Nat)
    (current_index : Nat)
    (hlook : lookupA orchestrator.workflows workflow_id = some workflow)
    (hci : indexOf? phase_order workflow.current_phase = some current_index) :
    ((∃ target_index, indexOf? phase_order target_phase = some target_index ∧
        current_index ≤ target_index) →
      ∃ w2, (transition_to_phase orchestrator workflow_id target_phase trigger_reason
          now new_state_id transition_id).2 = .ok w2 ∧
        w2.current_phase = target_phase ∧
        w2.completed_phases = workflow.completed_phases ++ [workflow.current_phase]) ∧
    (¬ (∃ target_index, indexOf? phase_order target_phase = some target_index ∧
        current_index ≤ target_index) →
      transition_to_phase orchestrator workflow_id target_phase trigger_reason
          now new_state_id transition_id =
        (orchestrator, .error (invalid_transition_error workflow.current_phase
          target_phase workflow_id))) := by
  constructor
  · rintro ⟨target_index, hti, hle⟩
    have hv : validate_phase_transition workflow target_phase = true := by
      unfold validate_phase_transition
      rw [hci, hti]
      simpa using hle
    unfold transition_to_phase
    rw [hlook]
    simp only [hv, if_true]
    exact ⟨_, rfl, rfl, rfl⟩
  · intro hno
    have hv : validate_phase_transition workflow target_phase = false := by
      unfold validate_phase_transition
      rw [hci]
      cases hti : indexOf? phase_order target_phase with
      | none => rfl
      | some target_index =>
        have hlt : ¬ current_index ≤ target_index := fun hle => hno ⟨target_index, hti, hle⟩
        simpa using hlt
    unfold transition_to_phase
    rw [hlook]
    simp [hv]

/-- Witness for C7: from TESTING, requesting PLANNING fails with the
invalid-transition error and the store stays put; from DISCOVERY, a direct
skip to TESTING succeeds in one call. -/
theorem transition_to_phase_ordering_witness :
    (transition_to_phase sampleOrchestrator 1 "planning" "User request" 9 10 11 =
      (sampleOrchestrator, .error (invalid_transition_error "testing" "planning" 1))) ∧
    (∃ w2, (transition_to_phase sampleOrchestrator 3 "testing" "User request" 9 10 11).2 =
        .ok w2 ∧
      w2.current_phase = "testing" ∧
      w2.completed_phases = ["discovery"]) := by
  constructor
  · exact (transition_to_phase_ordering sampleOrchestrator 1 sampleWorkflowTesting
      "planning" "User request" 9 10 11 5 rfl rfl).2
      (by
        rintro ⟨ti, hti, hle⟩
        have h1 : indexOf? phase_order "planning" = some 1 := rfl
        rw [h1] at hti
        cases hti
        omega)
  · exact (transition_to_phase_ordering sampleOrchestrator 3 sampleWorkflowDiscovery
      "testing" "User request" 9 10 11 0 rfl rfl).1 ⟨5, rfl, by omega⟩

/-- C8: resolving the same reference twice is a pure cache hit — the second
call returns the same data, the same resolver state, and the reference
object exactly as the first call left it (in particular `resolved_at` keeps
the first resolution's timestamp). -/
theorem resolve_idempotent (resolver : SymbolicReferenceResolver)
    (reference : SymbolicReference) (t1 t2 : Nat) :
    resolve (resolve resolver reference t1).2.1 (resolve resolver reference t1).2.2 t2 =
      ((resolve resolver reference t1).1,
       (resolve resolver reference t1).2.1,
       (resolve resolver reference t1).2.2) := by
  cases h : lookupA resolver.resolution_cache reference.reference_id with
  | some cached => simp [resolve, h]
  | none =>
    simp only [resolve, h]
    rw [lookupA_dictSet_self]

theorem update_artifact_some (manager : ArtifactManager) (artifact_id : String)
    (content changes : String) (now : Nat) (a : Artifact)
    (h : lookupA manager.artifacts artifact_id = some a) :
    ∃ a2, update_artifact manager artifact_id content changes now =
        ({ artifacts := dictSet manager.artifacts artifact_id a2 }, some a2) ∧
      a2.version = increment_version a.version := by
  unfold update_artifact
  rw [h]
  exact ⟨_, rfl, rfl⟩

/-- C9: the checksum of a created artifact with content `"hello"` is the
SHA-256 hex digest of the UTF-8 bytes of `"hello"`; from the default version
`"1.0.0"`, two successive `update_artifact` calls yield `"1.0.1"` then
`"1.0.2"`; and a version string with fewer than three dot-separated
components, or a non-numeric patch component, gets `".1"` appended. -/
theorem artifact_checksum_and_versioning :
    (create_artifact emptyArtifactManager "document" "Greeting" "hello" 7 "discovery"
      "H" 1).2.checksum =
      "2cf24dba5fb0a30e26e83b2ac5b9e29e1b161e5c1fa7425e73043362938b9824" ∧
    (∀ (manager : ArtifactManager) (artifact_id c1 g1 c2 g2 : String) (t1 t2 : Nat)
       (a : Artifact),
      lookupA manager.artifacts artifact_id = some a → a.version = "1.0.0" →
      (update_artifact manager artifact_id c1 g1 t1).2.map (fun x => x.version) =
        some "1.0.1" ∧
      (update_artifact (update_artifact manager artifact_id c1 g1 t1).1 artifact_id
          c2 g2 t2).2.map (fun x => x.version) = some "1.0.2") ∧
    (∀ version : String, (pySplit version (Char.ofNat 46)).length < 3 →
      increment_version version = version ++ ".1") ∧
    (∀ (version major minor patch : String) (rest : List String),
      pySplit version (Char.ofNat 46) = major :: minor :: patch :: rest →
      pyInt? patch = none → increment_version version = version ++ ".1") := by
  refine ⟨rfl, ?_, ?_, ?_⟩
  · intro manager artifact_id c1 g1 c2 g2 t1 t2 a hla hv
    obtain ⟨a1, h1, hv1⟩ := update_artifact_some manager artifact_id c1 g1 t1 a hla
    have hv1x : a1.version = "1.0.1" := by rw [hv1, hv]; rfl
    have hla1 : lookupA (update_artifact manager artifact_id c1 g1 t1).1.artifacts
        artifact_id = some a1 := by
      rw [h1]
      exact lookupA_dictSet_self _ _ _
    obtain ⟨a2, h2, hv2⟩ := update_artifact_some _ artifact_id c2 g2 t2 a1 hla1
    have hv2x : a2.version = "1.0.2" := by rw [hv2, hv1x]; rfl
    constructor
    · rw [h1]
      simp [hv1x]
    · rw [h2]
      simp [hv2x]
  · intro version h
    unfold increment_version
    rcases hs : pySplit version (Char.ofNat 46) with _ | ⟨p1, _ | ⟨p2, _ | ⟨p3, t⟩⟩⟩
    · rfl
    · rfl
    · rfl
    · rw [hs] at h
      simp at h
      omega
  · intro version major minor patch rest hs hint
    unfold increment_version
    rw [hs]
    simp only [hint]

/-- Witness for C9: the version chain on a stored artifact at `"1.0.0"`, a
two-component version, and a non-numeric patch component. -/
theorem artifact_checksum_and_versioning_witness :
    (update_artifact sampleArtifactManager "A" "v2" "edit" 3).2.map (fun x => x.version) =
      some "1.0.1" ∧
    (update_artifact (update_artifact sampleArtifactManager "A" "v2" "edit" 3).1 "A"
        "v3" "more" 4).2.map (fun x => x.version) = some "1.0.2" ∧
    increment_version "2.3" = "2.3.1" ∧
    increment_version "1.0.x" = "1.0.x.1" := by
  have h := artifact_checksum_and_versioning
  obtain ⟨h1, h2⟩ := h.2.1 sampleArtifactManager "A" "v2" "edit" "v3" "more" 3 4 _ rfl rfl
  exact ⟨h1, h2, h.2.2.1 "2.3" (by decide), h.2.2.2 "1.0.x" "1" "0" "x" [] rfl rfl⟩

/-- C10: for existing distinct artifacts `A` and `B`,
`add_artifact_relationship(A, B, "supersedes")` puts `B`'s id into
`A.supersedes` and sets `B.superseded_by` to `A`'s id; for the `dependency`
and `related` kinds the operation is idempotent — a second identical call
leaves the store exactly as after the first. -/
theorem add_artifact_relationship_spec (manager : ArtifactManager)
    (a_id b_id : String) (a b : Artifact)
    (hla : lookupA manager.artifacts a_id = some a)
    (hlb : lookupA manager.artifacts b_id = some b)
    (hne : a_id ≠ b_id) :
    (∃ a2 b2,
      lookupA (add_artifact_relationship manager a_id b_id "supersedes").1.artifacts
        a_id = some a2 ∧
      lookupA (add_artifact_relationship manager a_id b_id "supersedes").1.artifacts
        b_id = some b2 ∧
      a2.supersedes = a.supersedes ++ [b_id] ∧
      b_id ∈ a2.supersedes ∧
      b2.superseded_by = some a_id ∧
      (add_artifact_relationship manager a_id b_id "supersedes").2 = true) ∧
    (add_artifact_relationship
        (add_artifact_relationship manager a_id b_id "dependency").1
        a_id b_id "dependency").1 =
      (add_artifact_relationship manager a_id b_id "dependency").1 ∧
    (add_artifact_relationship
        (add_artifact_relationship manager a_id b_id "related").1
        a_id b_id "related").1 =
      (add_artifact_relationship manager a_id b_id "related").1 := by
  have hsup : add_artifact_relationship manager a_id b_id "supersedes" =
      ({ artifacts := dictSet (dictSet manager.artifacts a_id
          { a with supersedes := a.supersedes ++ [b_id] }) b_id
          { b with superseded_by := some a_id } }, true) := by
    unfold add_artifact_relationship
    rw [hla, hlb]
    dsimp only
    rw [if_neg (by decide), if_neg (by decide), if_pos rfl]
  have hdep : add_artifact_relationship manager a_id b_id "dependency" =
      ({ artifacts := dictSet (dictSet manager.artifacts a_id
          (if b_id ∈ a.dependencies then a
           else { a with dependencies := a.dependencies ++ [b_id] })) b_id b }, true) := by
    unfold add_artifact_relationship
    rw [hla, hlb]
    dsimp only
    rw [if_pos rfl]
  have hrel : add_artifact_relationship manager a_id b_id "related" =
      ({ artifacts := dictSet (dictSet manager.artifacts a_id
          (if b_id ∈ a.related_artifacts then a
           else { a with related_artifacts := a.related_artifacts ++ [b_id] })) b_id b },
       true) := by
    unfold add_artifact_relationship
    rw [hla, hlb]
    dsimp only
    rw [if_neg (by decide), if_pos rfl]
  refine ⟨?_, ?_, ?_⟩
  · refine ⟨{ a with supersedes := a.supersedes ++ [b_id] },
      { b with superseded_by := some a_id }, ?_, ?_, rfl, by simp, rfl, ?_⟩
    · rw [hsup]
      dsimp only
      rw [lookupA_dictSet_ne _ _ _ _ hne, lookupA_dictSet_self]
    · rw [hsup]
      dsimp only
      rw [lookupA_dictSet_self]
    · rw [hsup]
  · have hmem : b_id ∈ (if b_id ∈ a.dependencies then a
        else { a with dependencies := a.dependencies ++ [b_id] }).dependencies := by
      by_cases hm : b_id ∈ a.dependencies
      · simp [hm]
      · simp [hm]
    have hla1 : lookupA (add_artifact_relationship manager a_id b_id "dependency").1.artifacts
        a_id = some (if b_id ∈ a.dependencies then a
          else { a with dependencies := a.dependencies ++ [b_id] }) := by
      rw [hdep]
      dsimp only
      rw [lookupA_dictSet_ne _ _ _ _ hne, lookupA_dictSet_self]
    have hlb1 : lookupA (add_artifact_relationship manager a_id b_id "dependency").1.artifacts
        b_id = some b := by
      rw [hdep]
      dsimp only
      rw [lookupA_dictSet_self]
    set m1 := (add_artifact_relationship manager a_id b_id "dependency").1 with hm1
    unfold add_artifact_relationship
    rw [hla1, hlb1]
    dsimp only
    rw [if_pos rfl, if_pos hmem]
    rw [dictSet_eq_of_lookupA _ _ _ hla1, dictSet_eq_of_lookupA _ _ _ hlb1]
  · have hmem : b_id ∈ (if b_id ∈ a.related_artifacts then a
        else { a with related_artifacts := a.related_artifacts ++ [b_id] }).related_artifacts := by
      by_cases hm : b_id ∈ a.related_artifacts
      · simp [hm]
      · simp [hm]
    have hla1 : lookupA (add_artifact_relationship manager a_id b_id "related").1.artifacts
        a_id = some (if b_id ∈ a.related_artifacts then a
          else { a with related_artifacts := a.related_artifacts ++ [b_id] }) := by
      rw [hrel]
      dsimp only
      rw [lookupA_dictSet_ne _ _ _ _ hne, lookupA_dictSet_self]
    have hlb1 : lookupA (add_artifact_relationship manager a_id b_id "related").1.artifacts
        b_id = some b := by
      rw [hrel]
      dsimp only
      rw [lookupA_dictSet_self]
    set m1 := (add_artifact_relationship manager a_id b_id "related").1 with hm1
    unfold add_artifact_relationship
    rw [hla1, hlb1]
    dsimp only
    rw [if_neg (by decide), if_pos rfl, if_pos hmem]
    rw [dictSet_eq_of_lookupA _ _ _ hla1, dictSet_eq_of_lookupA _ _ _ hlb1]

/-- Witness for C10: the two stored sample artifacts `A` and `B`. -/
theorem add_artifact_relationship_spec_witness :
    (∃ a2 b2,
      lookupA (add_artifact_relationship sampleArtifactManager "A" "B" "supersedes").1.artifacts
        "A" = some a2 ∧
      lookupA (add_artifact_relationship sampleArtifactManager "A" "B" "supersedes").1.artifacts
        "B" = some b2 ∧
      "B" ∈ a2.supersedes ∧ b2.superseded_by = some "A") ∧
    (add_artifact_relationship
        (add_artifact_relationship sampleArtifactManager "A" "B" "dependency").1
        "A" "B" "dependency").1 =
      (add_artifact_relationship sampleArtifactManager "A" "B" "dependency").1 := by
  obtain ⟨⟨a2, b2, h1, h2, _, hmem, hsup, _⟩, hdep, _⟩ :=
    add_artifact_relationship_spec sampleArtifactManager "A" "B" _ _ rfl rfl (by decide)
  exact ⟨⟨a2, b2, h1, h2, hmem, hsup⟩, hdep⟩

end SpecAgent
